import Mathlib

/-!
Shallow embedding of the near-sandbox-js port-arbitration and
process-lifecycle subsystem (the sandbox utilities module and
src/server/Sandbox.ts).

External effects are modelled explicitly:
* socket bind probes, file locking, HTTP polling and process control are
  oracles (functions from a call index to an outcome);
* the filesystem is the list of existing paths, threaded through the
  functions that create lock files;
* thrown JS values are an explicit error type; `Except` models exception
  propagation;
* traces of performed actions are returned alongside results so that
  ordering and "step was executed" properties can be stated.
-/

/-- Error kinds of the repository's TypedError taxonomy. -/
inductive ErrKind where
  | PortNotAvailable
  | LockFailed
  | PortAcquisitionFailed
  | RunFailed
  | TearDownFailed
deriving DecidableEq

/-- A thrown JS value: either the repository's TypedError (message, kind and
an optional cause, recorded here by the cause's message), or a plain Error
propagated from a collaborator (for example a socket bind error). -/
inductive JsError where
  | typed (message : String) (kind : ErrKind) (cause : Option String)
  | raw (message : String)
deriving DecidableEq

/-- Message of a thrown error. Every modelled thrown value is an Error
object, mirroring what the source observes via `error.message`. -/
def JsError.message : JsError → String
  | .typed m _ _ => m
  | .raw m => m

/-- Kind of an error, when it is a TypedError. -/
def JsError.errKind : JsError → Option ErrKind
  | .typed _ k _ => some k
  | .raw _ => none

/-- Result of one `net.createServer().listen(...)` probe in
resolveAvailablePort: the server emits an error, or reports an address with
an OS-assigned port, or reports an address whose port cannot be read. -/
inductive BindOutcome where
  | ok (port : Nat)
  | err (message : String)
  | badAddr
deriving DecidableEq

/-- Oracle for the external effects consumed by one port-acquisition call:
outcome of the i-th bind probe, whether the i-th proper-lockfile `lock`
call succeeds, and the message of its error when it fails. -/
structure PortOracle where
  bind : Nat → BindOutcome
  lockOk : Nat → Bool
  lockErrMessage : Nat → String

def DEFAULT_RPC_HOST : String := "127.0.0.1"

/-- rpcSocket from the source: `${DEFAULT_RPC_HOST}:${port}`. -/
def rpcSocket (port : Nat) : String := DEFAULT_RPC_HOST ++ ":" ++ toString port

/-- The pair returned by the acquisition functions: a port together with the
path of its held lock file. -/
structure PortLease where
  port : Nat
  lockFilePath : String
deriving DecidableEq

/-- path.join for the one shape used by the source. -/
def pathJoin (dir name : String) : String := dir ++ "/" ++ name

/-- join(tmpdir(), `near-sandbox-port-${port}.lock`). -/
def lockFilePathFor (tmpdir : String) (port : Nat) : String :=
  pathJoin tmpdir ("near-sandbox-port-" ++ toString port ++ ".lock")

/-- createLockFileForPort: the filesystem is the list of existing paths; the
zero-byte file is written only when the path is absent (existsSync), so an
existing file is left untouched and causes no error. writeFile is modelled
as infallible; the function never throws. -/
def createLockFileForPort (tmpdir : String) (fs : List String) (port : Nat) :
    String × List String :=
  let lockFilePath := lockFilePathFor tmpdir port
  (lockFilePath, if lockFilePath ∈ fs then fs else lockFilePath :: fs)

/-- resolveAvailablePort: on a bind error the raw error is rejected (the
promise rejects with the server's error, unwrapped); when the bound address
cannot be read, a TypedError with kind PortAcquisitionFailed is rejected;
otherwise the OS-assigned port is resolved. -/
def resolveAvailablePort : BindOutcome → Except JsError Nat
  | .ok port => .ok port
  | .err m => .error (.raw m)
  | .badAddr =>
    .error (.typed "Could not determine assigned port." .PortAcquisitionFailed none)

/-- tryAcquireSpecificPort: probe the requested port, check the OS-chosen
port defensively, then create and lock the lock file. Only the `lock` call
is inside a try/catch; errors from resolveAvailablePort propagate as-is. -/
def tryAcquireSpecificPort (tmpdir : String) (o : PortOracle) (fs : List String)
    (port : Nat) : Except JsError PortLease × List String :=
  match resolveAvailablePort (o.bind 0) with
  | .error e => (.error e, fs)
  | .ok checkedPort =>
    if checkedPort ≠ port then
      (.error (.typed ("Port " ++ toString port ++ " is not available")
        .PortNotAvailable none), fs)
    else
      let r := createLockFileForPort tmpdir fs port
      if o.lockOk 0 then (.ok ⟨port, r.1⟩, r.2)
      else
        (.error (.typed ("Failed to lock port " ++ toString port ++
          ". It may already be in use.") .LockFailed none), r.2)

/-- MAX_ATTEMPTS of acquireUnusedPort. -/
def maxAttempts : Nat := 10

/-- Cause string of PortAcquisitionFailed:
errors.map((msg, i) => `Attempt ${i + 1}: ${msg}`).join("\n"). -/
def portAcqCause (errs : List String) : String :=
  String.intercalate "\n"
    (errs.mapIdx (fun i msg => "Attempt " ++ toString (i + 1) ++ ": " ++ msg))

/-- The TypedError thrown when acquireUnusedPort exhausts its attempts. -/
def mkPortAcqError (errs : List String) : JsError :=
  .typed ("Failed to acquire an unused port after " ++ toString maxAttempts ++
    " attempts") .PortAcquisitionFailed (some (portAcqCause errs))

/-- Failure message recorded by attempt `i` of acquireUnusedPort, when that
attempt fails: the bind error's message, the message of the TypedError for
an unreadable address, or the lock error's message. -/
def attemptFailMsg (o : PortOracle) (i : Nat) : String :=
  match o.bind i with
  | .err m => m
  | .badAddr => "Could not determine assigned port."
  | .ok _ => o.lockErrMessage i

/-- Loop body of acquireUnusedPort: attempt `i` binds an ephemeral port,
creates its lock file and locks it; on any failure the error message is
appended to `errs` and the next attempt runs; after the fuel (the remaining
attempts) is exhausted, PortAcquisitionFailed carries every recorded
message. -/
def acquireUnusedPortGo (tmpdir : String) (o : PortOracle) :
    Nat → Nat → List String → List String → Except JsError PortLease × List String
  | 0, _, errs, fs => (.error (mkPortAcqError errs), fs)
  | fuel + 1, i, errs, fs =>
    match o.bind i with
    | .err m => acquireUnusedPortGo tmpdir o fuel (i + 1) (errs ++ [m]) fs
    | .badAddr =>
      acquireUnusedPortGo tmpdir o fuel (i + 1)
        (errs ++ ["Could not determine assigned port."]) fs
    | .ok port =>
      let r := createLockFileForPort tmpdir fs port
      if o.lockOk i then (.ok ⟨port, r.1⟩, r.2)
      else acquireUnusedPortGo tmpdir o fuel (i + 1) (errs ++ [o.lockErrMessage i]) r.2

/-- acquireUnusedPort: up to MAX_ATTEMPTS ephemeral-port attempts. -/
def acquireUnusedPort (tmpdir : String) (o : PortOracle) (fs : List String) :
    Except JsError PortLease × List String :=
  acquireUnusedPortGo tmpdir o maxAttempts 0 [] fs

/-- JS truthiness of the optional `port` argument of acquireOrLockPort:
undefined and 0 are falsy. -/
def jsTruthyPort : Option Nat → Bool
  | none => false
  | some p => p != 0

/-- acquireOrLockPort: `port ? tryAcquireSpecificPort(port) :
acquireUnusedPort()`. -/
def acquireOrLockPort (tmpdir : String) (o : PortOracle) (fs : List String)
    (port : Option Nat) : Except JsError PortLease × List String :=
  if jsTruthyPort port then tryAcquireSpecificPort tmpdir o fs (port.getD 0)
  else acquireUnusedPort tmpdir o fs

/-- Outcome of one got(`{rpcUrl}/status`) request (throwHttpErrors is false,
so a non-2xx response is a response, not a thrown error): a response with
its status code, or a thrown error with its message. -/
inductive PollOutcome where
  | response (statusCode : Nat)
  | thrown (message : String)
deriving DecidableEq

/-- response.statusCode >= 200 && response.statusCode < 300. -/
def is2xxCode (c : Nat) : Bool := decide (200 ≤ c) && decide (c < 300)

/-- Whether a poll outcome is a response with a 2xx status code. -/
def is2xx : PollOutcome → Bool
  | .response c => is2xxCode c
  | .thrown _ => false

/-- JS number restricted to what parseInt can produce here. -/
inductive JsNum where
  | nan
  | int (n : Int)
deriving DecidableEq

/-- parseInt (default radix) on the strings of interest: skip leading
whitespace, optional sign, then the longest leading run of decimal digits;
NaN when that run is empty. (The hexadecimal `0x` literal form accepted by
parseInt is not modelled; no claim involves it.) -/
def parseIntJs (s : String) : JsNum :=
  let cs := s.toList.dropWhile (fun c => c == ' ' || c == '\t' || c == '\n' || c == '\r')
  let signed : Int × List Char :=
    match cs with
    | '-' :: rest => (-1, rest)
    | '+' :: rest => (1, rest)
    | rest => (1, rest)
  let ds := signed.2.takeWhile Char.isDigit
  if ds.isEmpty then .nan
  else .int (signed.1 * Int.ofNat (ds.foldl (fun acc c => acc * 10 + (c.toNat - 48)) 0))

/-- process.env["NEAR_RPC_TIMEOUT_SECS"] || '10': undefined and the empty
string are falsy, any other string (even "0") is truthy. -/
def timeoutEnvOrDefault : Option String → String
  | none => "10"
  | some s => if s = "" then "10" else s

/-- timeoutSecs = parseInt(process.env["NEAR_RPC_TIMEOUT_SECS"] || '10'). -/
def timeoutSecsOf (envVar : Option String) : JsNum :=
  parseIntJs (timeoutEnvOrDefault envVar)

/-- Number of iterations of `for (i = 0; i < attempts; i++)` where
attempts = timeoutSecs * 2: zero when timeoutSecs is NaN (any comparison
with NaN is false) and zero when the product is non-positive. -/
def pollAttempts (envVar : Option String) : Nat :=
  match timeoutSecsOf envVar with
  | .nan => 0
  | .int n => (n * 2).toNat

deriving instance DecidableEq for Except

/-- Observable outcome of one waitUntilReady call: its result, the number
of GET requests issued, and the list of sleep durations (ms) performed. -/
structure ReadyRun where
  result : Except JsError Unit
  requests : Nat
  sleeps : List Nat
deriving DecidableEq

/-- The RunFailed error thrown on exhaustion. Its cause is
`lastError instanceof Error ? lastError : new Error(String(lastError))`:
thrown poll values are Error objects carried as-is; when nothing was thrown,
lastError is still null and the cause is new Error(String(null)), whose
message is the string "null". -/
def runFailedError (lastError : Option String) : JsError :=
  .typed "Sandbox failed to become ready within the timeout period." .RunFailed
    (some (lastError.getD "null"))

/-- Polling loop of waitUntilReady: attempt `i` issues a request; a 2xx
response returns immediately; any other response keeps polling; a thrown
error is remembered in lastError and polling continues; a 500 ms sleep
follows every non-terminating attempt. -/
def waitUntilReadyGo (poll : Nat → PollOutcome) :
    Nat → Nat → Option String → ReadyRun
  | 0, _, lastError => ⟨.error (runFailedError lastError), 0, []⟩
  | fuel + 1, i, lastError =>
    match poll i with
    | .response code =>
      if is2xxCode code then ⟨.ok (), 1, []⟩
      else
        let r := waitUntilReadyGo poll fuel (i + 1) lastError
        ⟨r.result, r.requests + 1, 500 :: r.sleeps⟩
    | .thrown m =>
      let r := waitUntilReadyGo poll fuel (i + 1) (some m)
      ⟨r.result, r.requests + 1, 500 :: r.sleeps⟩

/-- waitUntilReady: poll GET {url}/status up to timeoutSecs * 2 attempts. -/
def waitUntilReady (envVar : Option String) (poll : Nat → PollOutcome) : ReadyRun :=
  waitUntilReadyGo poll (pollAttempts envVar) 0 none

/-- Value of `lastError` after attempts i, …, i+fuel-1 have run without an
early return, starting from accumulator `le`. -/
def lastThrownWin (poll : Nat → PollOutcome) : Nat → Nat → Option String → Option String
  | _, 0, le => le
  | i, fuel + 1, le =>
    lastThrownWin poll (i + 1) fuel
      (match poll i with
       | .thrown m => some m
       | .response _ => le)

/-- The last error observed (thrown) during attempts 0, …, n-1, if any. -/
def lastObservedError (poll : Nat → PollOutcome) (n : Nat) : Option String :=
  lastThrownWin poll 0 n none

/-- The individual actions a tearDown call performs, in order. -/
inductive TdStep where
  | killProcess
  | unlockRpc
  | unlockNet
  | awaitExit
  | removeHomeDir
deriving DecidableEq

/-- Oracle for one tearDown call: whether childProcess.kill() returned true,
the rejection reason of unlock(rpcPortLockPath) and of
unlock(netPortLockPath) if they reject, and the rejection message of
rm(homeDir, { recursive: true, force: true }) if it rejects. Because of
`force: true`, an already-absent directory is not a rejection; rmError
models only other failures (for example permissions). -/
structure TeardownEnv where
  killSuccess : Bool
  unlockRpcError : Option String
  unlockNetError : Option String
  rmError : Option String
deriving DecidableEq

/-- The error entries recorded for the two unlock attempts, in the order of
the Promise.allSettled array: rpc lock first, then net lock. A rejected
unlock records "Failed to unlock port: " followed by the rejection reason;
the entry carries no other identification of the port. -/
def unlockFailEntries (env : TeardownEnv) : List String :=
  (match env.unlockRpcError with
   | some reason => ["Failed to unlock port: " ++ reason]
   | none => []) ++
  (match env.unlockNetError with
   | some reason => ["Failed to unlock port: " ++ reason]
   | none => [])

/-- The error entry recorded for directory removal (only when cleanup runs
and rm rejects). -/
def rmFailEntries (env : TeardownEnv) (cleanup : Bool) : List String :=
  if cleanup then
    match env.rmError with
    | some m => ["Failed to remove sandbox home directory: " ++ m]
    | none => []
  else []

/-- The `errors` array accumulated by tearDown, in push order: kill failure,
then the two unlock failures, then the removal failure. -/
def tdErrorMessages (env : TeardownEnv) (cleanup : Bool) : List String :=
  (if env.killSuccess then [] else ["Failed to kill the child process"]) ++
  unlockFailEntries env ++ rmFailEntries env cleanup

/-- The steps a tearDown call performs, unconditionally in this order; the
exit wait and directory removal run only when cleanup is requested. -/
def teardownSteps (cleanup : Bool) : List TdStep :=
  [.killProcess, .unlockRpc, .unlockNet] ++
    (if cleanup then [.awaitExit, .removeHomeDir] else [])

/-- Observable outcome of one tearDown call: its result, the steps that were
executed, and whether the home directory exists afterwards. -/
structure TdRun where
  result : Except JsError Unit
  steps : List TdStep
  homeDirPresent : Bool
deriving DecidableEq

/-- tearDown: every step runs regardless of earlier failures; failures are
accumulated; if any were recorded, a single TearDownFailed TypedError is
thrown whose cause joins every entry, each prefixed with "- ". With
cleanup, rm uses recursive+force, so the directory is absent afterwards
whenever rm did not reject (including when it was already absent); when rm
rejects, the directory's presence is unchanged. -/
def tearDown (env : TeardownEnv) (cleanup : Bool) (homeDirPresent : Bool) : TdRun :=
  let msgs := tdErrorMessages env cleanup
  { result :=
      if msgs.isEmpty then .ok ()
      else
        .error (.typed "Sandbox teardown encountered errors" .TearDownFailed
          (some (String.intercalate "\n" (msgs.map (fun m => "- " ++ m)))))
    steps := teardownSteps cleanup
    homeDirPresent := if cleanup && env.rmError.isNone then false else homeDirPresent }

/-- Which of the two ports of a session an event concerns. -/
inductive PortRole where
  | rpc
  | net
deriving DecidableEq

/-- Events of one Sandbox.start call, in the order they are performed. -/
inductive StartEvent where
  | initConfigs
  | setGenesis
  | setConfig
  | acquireStart (role : PortRole)
  | acquireDone (role : PortRole) (port : Nat)
  | spawnProcess
  | readyConfirmed
deriving DecidableEq

/-- The data getPorts returns. -/
structure PortsInfo where
  rpcAddr : String
  netAddr : String
  rpcPortLock : String
  netPortLock : String
deriving DecidableEq

/-- getPorts: acquire the rpc port (lock held) first, then the net port;
package the two host:port strings and the two lock paths. Acquisition
failures propagate. The event trace marks the begin and the completion of
each acquisition. -/
def getPorts (tmpdir : String) (oRpc oNet : PortOracle) (fs : List String)
    (providedRpcPort providedNetPort : Option Nat) :
    Except JsError PortsInfo × List StartEvent × List String :=
  match acquireOrLockPort tmpdir oRpc fs providedRpcPort with
  | (.error e, fs1) => (.error e, [.acquireStart .rpc], fs1)
  | (.ok rpcLease, fs1) =>
    match acquireOrLockPort tmpdir oNet fs1 providedNetPort with
    | (.error e, fs2) =>
      (.error e,
       [.acquireStart .rpc, .acquireDone .rpc rpcLease.port, .acquireStart .net], fs2)
    | (.ok netLease, fs2) =>
      (.ok ⟨rpcSocket rpcLease.port, rpcSocket netLease.port,
        rpcLease.lockFilePath, netLease.lockFilePath⟩,
       [.acquireStart .rpc, .acquireDone .rpc rpcLease.port,
        .acquireStart .net, .acquireDone .net netLease.port], fs2)

/-- The session handle Sandbox.start builds on success. -/
structure SandboxHandle where
  rpcUrl : String
  homeDir : String
  rpcPortLockPath : String
  netPortLockPath : String
deriving DecidableEq

/-- Oracle for one Sandbox.start call. The binary/config collaborators
(initConfigsWithVersion, setSandboxGenesis, setSandboxConfig,
runWithArgsAndVersion) are external; each either succeeds or rejects with
an error message that propagates unwrapped. -/
structure StartEnv where
  tmpdir : String
  homeDirPath : String
  initConfigsError : Option String
  setGenesisError : Option String
  setConfigError : Option String
  rpcOracle : PortOracle
  netOracle : PortOracle
  runBinaryError : Option String
  readyEnvVar : Option String
  poll : Nat → PollOutcome

/-- The port-related part of SandboxConfig. -/
structure SandboxStartConfig where
  rpcPort : Option Nat
  netPort : Option Nat

/-- spawnSandbox: run the binary with the resolved addresses, then block on
waitUntilReady against http://{rpcAddr}; a launcher failure propagates
unwrapped; a readiness failure propagates. -/
def spawnSandbox (runBinaryError : Option String) (readyEnvVar : Option String)
    (poll : Nat → PollOutcome) (rpcAddr : String) :
    Except JsError String × List StartEvent :=
  match runBinaryError with
  | some m => (.error (.raw m), [.spawnProcess])
  | none =>
    match (waitUntilReady readyEnvVar poll).result with
    | .error e => (.error e, [.spawnProcess])
    | .ok _ => (.ok ("http://" ++ rpcAddr), [.spawnProcess, .readyConfirmed])

/-- Sandbox.start: init configs into the temporary home directory, write
genesis and config, acquire both ports, spawn the binary and wait for
readiness; the handle is constructed only after every step succeeded. Any
failure propagates immediately and no handle is produced. -/
def sandboxStart (env : StartEnv) (config : SandboxStartConfig) (fs : List String) :
    Except JsError SandboxHandle × List StartEvent × List String :=
  match env.initConfigsError with
  | some m => (.error (.raw m), [.initConfigs], fs)
  | none =>
  match env.setGenesisError with
  | some m => (.error (.raw m), [.initConfigs, .setGenesis], fs)
  | none =>
  match env.setConfigError with
  | some m => (.error (.raw m), [.initConfigs, .setGenesis, .setConfig], fs)
  | none =>
    match getPorts env.tmpdir env.rpcOracle env.netOracle fs config.rpcPort config.netPort with
    | (.error e, t, fs2) =>
      (.error e, [StartEvent.initConfigs, .setGenesis, .setConfig] ++ t, fs2)
    | (.ok ports, t, fs2) =>
      match spawnSandbox env.runBinaryError env.readyEnvVar env.poll ports.rpcAddr with
      | (.error e, t2) =>
        (.error e, [StartEvent.initConfigs, .setGenesis, .setConfig] ++ t ++ t2, fs2)
      | (.ok rpcUrl, t2) =>
        (.ok ⟨rpcUrl, env.homeDirPath, ports.rpcPortLock, ports.netPortLock⟩,
         [StartEvent.initConfigs, .setGenesis, .setConfig] ++ t ++ t2, fs2)

/-!
Helper lemmas.
-/

theorem range_map_shift {β : Type} (f : Nat → β) (i fuel : Nat) :
    (List.range (fuel + 1)).map (fun k => f (i + k)) =
      f i :: (List.range fuel).map (fun k => f (i + 1 + k)) := by
  have h : ((fun k => f (i + k)) ∘ Nat.succ) = (fun k => f (i + 1 + k)) := by
    funext k
    simp only [Function.comp_apply]
    congr 1
    omega
  rw [List.range_succ_eq_map, List.map_cons, List.map_map, h]
  simp

theorem acquireUnusedPortGo_spec (tmpdir : String) (o : PortOracle) :
    ∀ (fuel i : Nat) (errs fs : List String),
      (∃ lease fs2, acquireUnusedPortGo tmpdir o fuel i errs fs = (.ok lease, fs2)) ∨
      (acquireUnusedPortGo tmpdir o fuel i errs fs).1 =
        .error (mkPortAcqError
          (errs ++ (List.range fuel).map (fun k => attemptFailMsg o (i + k)))) := by
  intro fuel
  induction fuel with
  | zero =>
    intro i errs fs
    right
    simp [acquireUnusedPortGo]
  | succ fuel ih =>
    intro i errs fs
    have key : ∀ (msg : String) (fsn : List String),
        attemptFailMsg o i = msg →
        acquireUnusedPortGo tmpdir o (fuel + 1) i errs fs =
          acquireUnusedPortGo tmpdir o fuel (i + 1) (errs ++ [msg]) fsn →
        (∃ lease fs2,
            acquireUnusedPortGo tmpdir o (fuel + 1) i errs fs = (.ok lease, fs2)) ∨
        (acquireUnusedPortGo tmpdir o (fuel + 1) i errs fs).1 =
          .error (mkPortAcqError
            (errs ++ (List.range (fuel + 1)).map (fun k => attemptFailMsg o (i + k)))) := by
      intro msg fsn hmsg hstep
      rcases ih (i + 1) (errs ++ [msg]) fsn with ⟨lease, fs2, h⟩ | h
      · exact Or.inl ⟨lease, fs2, by rw [hstep, h]⟩
      · right
        rw [hstep, h]
        have hlist : (errs ++ [msg]) ++
            (List.range fuel).map (fun k => attemptFailMsg o (i + 1 + k)) =
            errs ++ (List.range (fuel + 1)).map (fun k => attemptFailMsg o (i + k)) := by
          rw [range_map_shift (attemptFailMsg o) i fuel, hmsg]
          simp [List.append_assoc]
        rw [hlist]
    cases hb : o.bind i with
    | err m =>
      exact key m fs (by simp [attemptFailMsg, hb]) (by simp [acquireUnusedPortGo, hb])
    | badAddr =>
      exact key "Could not determine assigned port." fs (by simp [attemptFailMsg, hb])
        (by simp [acquireUnusedPortGo, hb])
    | ok port =>
      cases hl : o.lockOk i with
      | false =>
        exact key (o.lockErrMessage i) (createLockFileForPort tmpdir fs port).2
          (by simp [attemptFailMsg, hb]) (by simp [acquireUnusedPortGo, hb, hl])
      | true =>
        exact Or.inl ⟨⟨port, (createLockFileForPort tmpdir fs port).1⟩,
          (createLockFileForPort tmpdir fs port).2,
          by simp [acquireUnusedPortGo, hb, hl]⟩

theorem acquireUnusedPortGo_agree (tmpdir : String) (o onew : PortOracle) :
    ∀ (fuel i : Nat) (errs fs : List String),
      (∀ k, k < fuel →
        o.bind (i + k) = onew.bind (i + k) ∧ o.lockOk (i + k) = onew.lockOk (i + k) ∧
          o.lockErrMessage (i + k) = onew.lockErrMessage (i + k)) →
      acquireUnusedPortGo tmpdir o fuel i errs fs =
        acquireUnusedPortGo tmpdir onew fuel i errs fs := by
  intro fuel
  induction fuel with
  | zero => intro i errs fs _; rfl
  | succ fuel ih =>
    intro i errs fs h
    have h0 := h 0 (Nat.succ_pos fuel)
    rw [Nat.add_zero] at h0
    have hrec : ∀ k, k < fuel →
        o.bind (i + 1 + k) = onew.bind (i + 1 + k) ∧
          o.lockOk (i + 1 + k) = onew.lockOk (i + 1 + k) ∧
          o.lockErrMessage (i + 1 + k) = onew.lockErrMessage (i + 1 + k) := by
      intro k hk
      have hh := h (k + 1) (by omega)
      rw [show i + (k + 1) = i + 1 + k from by omega] at hh
      exact hh
    cases hb : o.bind i with
    | err m =>
      have hb2 : onew.bind i = .err m := by rw [← h0.1]; exact hb
      simp only [acquireUnusedPortGo, hb, hb2]
      exact ih (i + 1) (errs ++ [m]) fs hrec
    | badAddr =>
      have hb2 : onew.bind i = .badAddr := by rw [← h0.1]; exact hb
      simp only [acquireUnusedPortGo, hb, hb2]
      exact ih (i + 1) (errs ++ ["Could not determine assigned port."]) fs hrec
    | ok port =>
      have hb2 : onew.bind i = .ok port := by rw [← h0.1]; exact hb
      cases hl : o.lockOk i with
      | true =>
        have hl2 : onew.lockOk i = true := by rw [← h0.2.1]; exact hl
        simp [acquireUnusedPortGo, hb, hb2, hl, hl2]
      | false =>
        have hl2 : onew.lockOk i = false := by rw [← h0.2.1]; exact hl
        simp only [acquireUnusedPortGo, hb, hb2, hl, hl2, h0.2.2]
        exact ih (i + 1) (errs ++ [onew.lockErrMessage i])
          (createLockFileForPort tmpdir fs port).2 hrec

theorem acquireUnusedPortGo_ok_lockPath (tmpdir : String) (o : PortOracle) :
    ∀ (fuel i : Nat) (errs fs : List String) (lease : PortLease) (fs2 : List String),
      acquireUnusedPortGo tmpdir o fuel i errs fs = (.ok lease, fs2) →
      lease.lockFilePath = lockFilePathFor tmpdir lease.port := by
  intro fuel
  induction fuel with
  | zero =>
    intro i errs fs lease fs2 h
    simp [acquireUnusedPortGo] at h
  | succ fuel ih =>
    intro i errs fs lease fs2 h
    cases hb : o.bind i with
    | err m =>
      simp only [acquireUnusedPortGo, hb] at h
      exact ih _ _ _ _ _ h
    | badAddr =>
      simp only [acquireUnusedPortGo, hb] at h
      exact ih _ _ _ _ _ h
    | ok port =>
      cases hl : o.lockOk i with
      | false =>
        simp only [acquireUnusedPortGo, hb, hl] at h
        exact ih _ _ _ _ _ h
      | true =>
        simp only [acquireUnusedPortGo, hb, hl, Prod.mk.injEq, Except.ok.injEq] at h
        try obtain ⟨h1, h2⟩ := h
        try rw [← h1]
        simp [createLockFileForPort]

theorem tryAcquireSpecificPort_ok_lockPath (tmpdir : String) (o : PortOracle)
    (fs : List String) (port : Nat) (lease : PortLease) (fs2 : List String)
    (h : tryAcquireSpecificPort tmpdir o fs port = (.ok lease, fs2)) :
    lease.lockFilePath = lockFilePathFor tmpdir lease.port := by
  cases hb : o.bind 0 with
  | err m => simp [tryAcquireSpecificPort, resolveAvailablePort, hb] at h
  | badAddr => simp [tryAcquireSpecificPort, resolveAvailablePort, hb] at h
  | ok q =>
    simp only [tryAcquireSpecificPort, resolveAvailablePort, hb] at h
    by_cases hq : q ≠ port
    · rw [if_pos hq] at h
      simp at h
    · rw [if_neg hq] at h
      cases hl : o.lockOk 0 with
      | false => simp [hl] at h
      | true =>
        simp only [hl, if_true, Prod.mk.injEq, Except.ok.injEq] at h
        try obtain ⟨h1, h2⟩ := h
        try rw [← h1]
        simp [createLockFileForPort]

theorem acquireOrLockPort_ok_lockPath (tmpdir : String) (o : PortOracle)
    (fs : List String) (port : Option Nat) (lease : PortLease) (fs2 : List String)
    (h : acquireOrLockPort tmpdir o fs port = (.ok lease, fs2)) :
    lease.lockFilePath = lockFilePathFor tmpdir lease.port := by
  unfold acquireOrLockPort at h
  by_cases ht : jsTruthyPort port = true
  · rw [if_pos ht] at h
    exact tryAcquireSpecificPort_ok_lockPath tmpdir o fs (port.getD 0) lease fs2 h
  · rw [if_neg ht] at h
    exact acquireUnusedPortGo_ok_lockPath tmpdir o maxAttempts 0 [] fs lease fs2 h

/-!
Claims about port acquisition (C2, C3, C10) and the lock file (C8).
-/

/-- C2 counterexample. The claim states that acquireOrLockPort(p) fails with
PortNotAvailable when the bind probe cannot bind p. In the code, a bind
failure rejects resolveAvailablePort with the raw socket error, which
propagates out of tryAcquireSpecificPort unwrapped: the result is a plain
Error carrying no TypedError kind at all, not a PortNotAvailable error. -/
def c2BindFailOracle : PortOracle :=
  ⟨fun _ => .err "listen EADDRINUSE: address already in use 127.0.0.1:3030",
   fun _ => true, fun _ => ""⟩

/-- C2: counterexample showing a bind failure for an explicitly requested
port surfaces as the raw bind error, whose kind is not PortNotAvailable. -/
theorem C2_counterexample :
    (acquireOrLockPort "/tmp" c2BindFailOracle [] (some 3030)).1 =
      .error (.raw "listen EADDRINUSE: address already in use 127.0.0.1:3030") ∧
    JsError.errKind
        (.raw "listen EADDRINUSE: address already in use 127.0.0.1:3030") ≠
      some .PortNotAvailable := by
  constructor
  · rfl
  · decide

/-- C2 (amended): for an explicitly requested nonzero port p, when the bind
probe succeeds but the OS-chosen port differs from p the call fails with
PortNotAvailable; when the bind probe itself fails the underlying bind
error propagates unwrapped (and an unreadable address propagates the
PortAcquisitionFailed TypedError of resolveAvailablePort); when the probe
succeeds with port p but acquiring the lock fails, it fails with
LockFailed; otherwise it returns a lease for exactly port p. -/
theorem C2_tryAcquireSpecificPort_spec (tmpdir : String) (o : PortOracle)
    (fs : List String) (p : Nat) (hp : p ≠ 0) :
    (∀ m, o.bind 0 = .err m →
      (acquireOrLockPort tmpdir o fs (some p)).1 = .error (.raw m)) ∧
    (o.bind 0 = .badAddr →
      (acquireOrLockPort tmpdir o fs (some p)).1 =
        .error (.typed "Could not determine assigned port." .PortAcquisitionFailed none)) ∧
    (∀ q, o.bind 0 = .ok q → q ≠ p →
      (acquireOrLockPort tmpdir o fs (some p)).1 =
        .error (.typed ("Port " ++ toString p ++ " is not available")
          .PortNotAvailable none)) ∧
    (o.bind 0 = .ok p → o.lockOk 0 = false →
      (acquireOrLockPort tmpdir o fs (some p)).1 =
        .error (.typed ("Failed to lock port " ++ toString p ++
          ". It may already be in use.") .LockFailed none)) ∧
    (o.bind 0 = .ok p → o.lockOk 0 = true →
      (acquireOrLockPort tmpdir o fs (some p)).1 =
        .ok ⟨p, lockFilePathFor tmpdir p⟩) := by
  have ht : jsTruthyPort (some p) = true := by
    simp [jsTruthyPort, bne_iff_ne, hp]
  refine ⟨?_, ?_, ?_, ?_, ?_⟩
  · intro m hb
    simp [acquireOrLockPort, ht, tryAcquireSpecificPort, resolveAvailablePort, hb]
  · intro hb
    simp [acquireOrLockPort, ht, tryAcquireSpecificPort, resolveAvailablePort, hb]
  · intro q hb hq
    simp [acquireOrLockPort, ht, tryAcquireSpecificPort, resolveAvailablePort, hb, hq]
  · intro hb hl
    simp [acquireOrLockPort, ht, tryAcquireSpecificPort, resolveAvailablePort, hb, hl]
  · intro hb hl
    simp [acquireOrLockPort, ht, tryAcquireSpecificPort, resolveAvailablePort, hb, hl,
      createLockFileForPort]

/-- Oracle on which every probe and lock succeeds, reporting port 3030. -/
def c2OkOracle : PortOracle := ⟨fun _ => .ok 3030, fun _ => true, fun _ => ""⟩

/-- C2 witness: the amended theorem evaluated on a concrete oracle. -/
theorem C2_witness :
    (3030 : Nat) ≠ 0 ∧
    (acquireOrLockPort "/tmp" c2OkOracle [] (some 3030)).1 =
      .ok ⟨3030, lockFilePathFor "/tmp" 3030⟩ :=
  ⟨by decide,
   (C2_tryAcquireSpecificPort_spec "/tmp" c2OkOracle [] 3030 (by decide)).2.2.2.2 rfl rfl⟩

/-- C3: with no explicit port, the call's outcome is decided by the first
maxAttempts (10) oracle entries alone (at most 10 attempts are made), and
either a valid lease is returned or the call fails with the
PortAcquisitionFailed TypedError whose cause joins the recorded failure
message of every one of the 10 attempts, tagged "Attempt i+1:", in order —
never just the last one. -/
theorem C3_acquireUnusedPort_attempts (tmpdir : String) (o : PortOracle)
    (fs : List String) :
    (∀ onew : PortOracle,
      (∀ i, i < maxAttempts →
        o.bind i = onew.bind i ∧ o.lockOk i = onew.lockOk i ∧
          o.lockErrMessage i = onew.lockErrMessage i) →
      acquireOrLockPort tmpdir o fs none = acquireOrLockPort tmpdir onew fs none) ∧
    ((∃ lease fs2, acquireOrLockPort tmpdir o fs none = (.ok lease, fs2)) ∨
      (acquireOrLockPort tmpdir o fs none).1 =
        .error (mkPortAcqError
          ((List.range maxAttempts).map (fun i => attemptFailMsg o i)))) := by
  constructor
  · intro onew h
    show acquireUnusedPort tmpdir o fs = acquireUnusedPort tmpdir onew fs
    exact acquireUnusedPortGo_agree tmpdir o onew maxAttempts 0 [] fs
      (fun k hk => by simpa using h k hk)
  · have h := acquireUnusedPortGo_spec tmpdir o maxAttempts 0 [] fs
    simpa [acquireOrLockPort, jsTruthyPort, acquireUnusedPort] using h

/-- Oracle whose first ten bind probes all fail. -/
def c3FailOracle : PortOracle :=
  ⟨fun _ => .err "bind EADDRINUSE", fun _ => true, fun _ => "lockfail"⟩

/-- Oracle equal to c3FailOracle on the first ten indices but different at
index 15, which is never consulted. -/
def c3FailOracleLater : PortOracle :=
  ⟨fun i => if i = 15 then .ok 1 else .err "bind EADDRINUSE",
   fun _ => true, fun _ => "lockfail"⟩

/-- C3 witness: the theorem evaluated on concrete oracles; outcomes agree
when the first ten entries agree, and the exhausted call reports every
attempt's message. -/
theorem C3_witness :
    (∀ i, i < maxAttempts →
      c3FailOracle.bind i = c3FailOracleLater.bind i ∧
        c3FailOracle.lockOk i = c3FailOracleLater.lockOk i ∧
        c3FailOracle.lockErrMessage i = c3FailOracleLater.lockErrMessage i) ∧
    (acquireOrLockPort "/tmp" c3FailOracle [] none =
      acquireOrLockPort "/tmp" c3FailOracleLater [] none) ∧
    ((∃ lease fs2, acquireOrLockPort "/tmp" c3FailOracle [] none = (.ok lease, fs2)) ∨
      (acquireOrLockPort "/tmp" c3FailOracle [] none).1 =
        .error (mkPortAcqError
          ((List.range maxAttempts).map (fun i => attemptFailMsg c3FailOracle i)))) :=
  ⟨by decide,
   (C3_acquireUnusedPort_attempts "/tmp" c3FailOracle []).1 c3FailOracleLater (by decide),
   (C3_acquireUnusedPort_attempts "/tmp" c3FailOracle []).2⟩

/-- C8: the lock file path is deterministic, derived solely from the port
and located under the system temporary directory; creation writes only when
the path is absent, never errors because the file exists (the function is
total), and the whole operation is idempotent. -/
theorem C8_createLockFileForPort_idempotent (tmpdir : String)
    (fs fsb : List String) (port : Nat) :
    (createLockFileForPort tmpdir fs port).1 = lockFilePathFor tmpdir port ∧
    (createLockFileForPort tmpdir fsb port).1 = (createLockFileForPort tmpdir fs port).1 ∧
    lockFilePathFor tmpdir port =
      tmpdir ++ "/" ++ ("near-sandbox-port-" ++ toString port ++ ".lock") ∧
    (lockFilePathFor tmpdir port ∈ fs → (createLockFileForPort tmpdir fs port).2 = fs) ∧
    (lockFilePathFor tmpdir port ∉ fs →
      (createLockFileForPort tmpdir fs port).2 = lockFilePathFor tmpdir port :: fs) ∧
    createLockFileForPort tmpdir (createLockFileForPort tmpdir fs port).2 port =
      (lockFilePathFor tmpdir port, (createLockFileForPort tmpdir fs port).2) := by
  refine ⟨rfl, rfl, rfl, ?_, ?_, ?_⟩
  · intro h
    simp [createLockFileForPort, h]
  · intro h
    simp [createLockFileForPort, h]
  · by_cases h : lockFilePathFor tmpdir port ∈ fs
    · simp [createLockFileForPort, h]
    · simp [createLockFileForPort, h]

/-- C8 witness: the theorem evaluated with the file already present — the
second creation leaves the filesystem unchanged. -/
theorem C8_witness :
    ("/tmp/near-sandbox-port-3030.lock" ∈
      (["/tmp/near-sandbox-port-3030.lock"] : List String)) ∧
    (createLockFileForPort "/tmp" ["/tmp/near-sandbox-port-3030.lock"] 3030).2 =
      ["/tmp/near-sandbox-port-3030.lock"] :=
  ⟨by decide,
   (C8_createLockFileForPort_idempotent "/tmp"
     ["/tmp/near-sandbox-port-3030.lock"] [] 3030).2.2.2.1 (by decide)⟩

/-- C10: an explicit port value of 0 is falsy in the source's
`port ? tryAcquireSpecificPort(port) : acquireUnusedPort()` dispatch, so it
takes exactly the same ephemeral-acquisition path as passing no port. -/
theorem C10_port_zero_is_ephemeral (tmpdir : String) (o : PortOracle)
    (fs : List String) :
    acquireOrLockPort tmpdir o fs (some 0) = acquireUnusedPort tmpdir o fs ∧
    acquireOrLockPort tmpdir o fs none = acquireUnusedPort tmpdir o fs :=
  ⟨rfl, rfl⟩

/-!
Readiness polling lemmas and claims (C4, C5).
-/

theorem waitUntilReadyGo_requests_le (poll : Nat → PollOutcome) :
    ∀ (fuel i : Nat) (le : Option String),
      (waitUntilReadyGo poll fuel i le).requests ≤ fuel := by
  intro fuel
  induction fuel with
  | zero => intro i le; simp [waitUntilReadyGo]
  | succ fuel ih =>
    intro i le
    cases hp : poll i with
    | response code =>
      cases hc : is2xxCode code with
      | true => simp [waitUntilReadyGo, hp, hc]
      | false =>
        simp only [waitUntilReadyGo, hp, hc]
        simpa using Nat.succ_le_succ (ih (i + 1) le)
    | thrown m =>
      simp only [waitUntilReadyGo, hp]
      simpa using Nat.succ_le_succ (ih (i + 1) (some m))

theorem waitUntilReadyGo_sleeps_500 (poll : Nat → PollOutcome) :
    ∀ (fuel i : Nat) (le : Option String),
      (waitUntilReadyGo poll fuel i le).sleeps.all (fun d => d == 500) = true := by
  intro fuel
  induction fuel with
  | zero => intro i le; simp [waitUntilReadyGo]
  | succ fuel ih =>
    intro i le
    cases hp : poll i with
    | response code =>
      cases hc : is2xxCode code with
      | true => simp [waitUntilReadyGo, hp, hc]
      | false =>
        simp only [waitUntilReadyGo, hp, hc]
        simpa using ih (i + 1) le
    | thrown m =>
      simp only [waitUntilReadyGo, hp]
      simpa using ih (i + 1) (some m)

theorem waitUntilReadyGo_ok_iff (poll : Nat → PollOutcome) :
    ∀ (fuel i : Nat) (le : Option String),
      (waitUntilReadyGo poll fuel i le).result = .ok () ↔
        ∃ k, k < fuel ∧ is2xx (poll (i + k)) = true := by
  intro fuel
  induction fuel with
  | zero =>
    intro i le
    simp [waitUntilReadyGo]
  | succ fuel ih =>
    intro i le
    cases hp : poll i with
    | response code =>
      cases hc : is2xxCode code with
      | true =>
        simp only [waitUntilReadyGo, hp, hc, if_true]
        constructor
        · intro _
          exact ⟨0, Nat.succ_pos fuel, by simp [is2xx, hp, hc]⟩
        · intro _
          trivial
      | false =>
        simp only [waitUntilReadyGo, hp, hc, Bool.false_eq_true, if_false]
        rw [show (⟨(waitUntilReadyGo poll fuel (i + 1) le).result,
            (waitUntilReadyGo poll fuel (i + 1) le).requests + 1,
            500 :: (waitUntilReadyGo poll fuel (i + 1) le).sleeps⟩ : ReadyRun).result =
          (waitUntilReadyGo poll fuel (i + 1) le).result from rfl]
        rw [ih (i + 1) le]
        constructor
        · rintro ⟨k, hk, h2⟩
          exact ⟨k + 1, by omega, by rw [show i + (k + 1) = i + 1 + k from by omega]; exact h2⟩
        · rintro ⟨k, hk, h2⟩
          cases k with
          | zero =>
            rw [Nat.add_zero] at h2
            rw [hp] at h2
            simp [is2xx, hc] at h2
          | succ k =>
            exact ⟨k, by omega, by rw [show i + 1 + k = i + (k + 1) from by omega]; exact h2⟩
    | thrown m =>
      simp only [waitUntilReadyGo, hp]
      rw [show (⟨(waitUntilReadyGo poll fuel (i + 1) (some m)).result,
          (waitUntilReadyGo poll fuel (i + 1) (some m)).requests + 1,
          500 :: (waitUntilReadyGo poll fuel (i + 1) (some m)).sleeps⟩ : ReadyRun).result =
        (waitUntilReadyGo poll fuel (i + 1) (some m)).result from rfl]
      rw [ih (i + 1) (some m)]
      constructor
      · rintro ⟨k, hk, h2⟩
        exact ⟨k + 1, by omega, by rw [show i + (k + 1) = i + 1 + k from by omega]; exact h2⟩
      · rintro ⟨k, hk, h2⟩
        cases k with
        | zero =>
          rw [Nat.add_zero] at h2
          rw [hp] at h2
          simp [is2xx] at h2
        | succ k =>
          exact ⟨k, by omega, by rw [show i + 1 + k = i + (k + 1) from by omega]; exact h2⟩

theorem waitUntilReadyGo_exhaust (poll : Nat → PollOutcome) :
    ∀ (fuel i : Nat) (le : Option String),
      (∀ k, k < fuel → is2xx (poll (i + k)) = false) →
      waitUntilReadyGo poll fuel i le =
        ⟨.error (runFailedError (lastThrownWin poll i fuel le)), fuel,
          List.replicate fuel 500⟩ := by
  intro fuel
  induction fuel with
  | zero =>
    intro i le _
    simp [waitUntilReadyGo, lastThrownWin]
  | succ fuel ih =>
    intro i le h
    have h0 : is2xx (poll i) = false := by
      have := h 0 (Nat.succ_pos fuel)
      rwa [Nat.add_zero] at this
    have hrec : ∀ k, k < fuel → is2xx (poll (i + 1 + k)) = false := by
      intro k hk
      have hh := h (k + 1) (by omega)
      rwa [show i + (k + 1) = i + 1 + k from by omega] at hh
    cases hp : poll i with
    | response code =>
      have hc : is2xxCode code = false := by
        rw [hp] at h0
        simpa [is2xx] using h0
      simp only [waitUntilReadyGo, hp, hc, Bool.false_eq_true, if_false]
      rw [ih (i + 1) le hrec]
      simp [lastThrownWin, hp, List.replicate_succ]
    | thrown m =>
      simp only [waitUntilReadyGo, hp]
      rw [ih (i + 1) (some m) hrec]
      simp [lastThrownWin, hp, List.replicate_succ]

/-- C4 counterexample. The claim states that timeoutSeconds defaults to 10
when the environment setting is non-numeric, which would allow 20 polling
attempts and let a first-attempt 200 response succeed. In the code,
parseInt("abc") is NaN, attempts is NaN, and the loop body never runs: even
against a server answering 200 immediately, no request is issued and the
call fails. -/
theorem C4_counterexample :
    pollAttempts (some "abc") = 0 ∧
    (waitUntilReady (some "abc") (fun _ => .response 200)).requests = 0 ∧
    (waitUntilReady (some "abc") (fun _ => .response 200)).result ≠ .ok () ∧
    is2xx (.response 200) = true := by
  refine ⟨by decide, by decide, by decide, by decide⟩

/-- C4 (amended): waitUntilReady issues at most timeoutSecs * 2 requests,
sleeping 500 ms between attempts; timeoutSecs is read from the environment
and defaults to 10 (20 attempts) when the setting is unset or empty; when
the setting has no parseable leading integer, parseInt yields NaN and zero
attempts are made; the wait terminates successfully exactly when some
attempt within the budget observes a response with a 2xx status code. -/
theorem C4_waitUntilReady_polling (envVar : Option String)
    (poll : Nat → PollOutcome) :
    (waitUntilReady envVar poll).requests ≤ pollAttempts envVar ∧
    (waitUntilReady envVar poll).sleeps.all (fun d => d == 500) = true ∧
    pollAttempts none = 20 ∧
    pollAttempts (some "") = 20 ∧
    (∀ s : String, s ≠ "" → parseIntJs s = .nan → pollAttempts (some s) = 0) ∧
    ((waitUntilReady envVar poll).result = .ok () ↔
      ∃ i, i < pollAttempts envVar ∧ is2xx (poll i) = true) := by
  refine ⟨?_, ?_, by decide, by decide, ?_, ?_⟩
  · exact waitUntilReadyGo_requests_le poll (pollAttempts envVar) 0 none
  · exact waitUntilReadyGo_sleeps_500 poll (pollAttempts envVar) 0 none
  · intro s hs hnan
    simp [pollAttempts, timeoutSecsOf, timeoutEnvOrDefault, hs, hnan]
  · have h := waitUntilReadyGo_ok_iff poll (pollAttempts envVar) 0 none
    simpa [waitUntilReady] using h

/-- C4 witness: against a concrete first-attempt 200 responder with the
setting unset, the wait succeeds; and a concrete non-numeric setting yields
a zero attempt budget. -/
theorem C4_witness :
    (waitUntilReady none (fun _ => .response 200)).result = .ok () ∧
    ("x" : String) ≠ "" ∧
    parseIntJs "x" = .nan ∧
    pollAttempts (some "x") = 0 :=
  ⟨(C4_waitUntilReady_polling none (fun _ => .response 200)).2.2.2.2.2.mpr
      ⟨0, by decide, by decide⟩,
   by decide, by decide,
   (C4_waitUntilReady_polling none (fun _ => .response 200)).2.2.2.2.1 "x"
     (by decide) (by decide)⟩

/-- C5 counterexample. The claim describes the fallback as a synthetic
"no response" error. In the code, when no error was observed, lastError is
still null and the thrown RunFailed carries new Error(String(null)), whose
message is the string "null", not "no response". -/
theorem C5_counterexample :
    (waitUntilReady none (fun _ => .response 503)).result =
      .error (.typed "Sandbox failed to become ready within the timeout period."
        .RunFailed (some "null")) ∧
    ("null" : String) ≠ "no response" := by
  refine ⟨by decide, by decide⟩

/-- C5 (amended): when every attempt within the budget fails to observe a
2xx response, waitUntilReady fails with the RunFailed TypedError carrying
the last observed (thrown) error; when no error was observed during
polling, the carried cause is the synthetic Error whose message is "null"
(the stringification of the never-assigned lastError). -/
theorem C5_waitUntilReady_exhaustion (envVar : Option String)
    (poll : Nat → PollOutcome)
    (h : ∀ i, i < pollAttempts envVar → is2xx (poll i) = false) :
    (waitUntilReady envVar poll).result =
      .error (.typed "Sandbox failed to become ready within the timeout period."
        .RunFailed
        (some ((lastObservedError poll (pollAttempts envVar)).getD "null"))) := by
  have hg : ∀ k, k < pollAttempts envVar → is2xx (poll (0 + k)) = false := by
    intro k hk
    rw [Nat.zero_add]
    exact h k hk
  rw [show waitUntilReady envVar poll =
    waitUntilReadyGo poll (pollAttempts envVar) 0 none from rfl]
  rw [waitUntilReadyGo_exhaust poll (pollAttempts envVar) 0 none hg]
  rfl

/-- C5 witness: a concrete run whose every attempt throws — the RunFailed
cause is the last thrown error's message. -/
theorem C5_witness :
    (∀ i, i < pollAttempts none →
      is2xx ((fun _ => PollOutcome.thrown "connect ECONNREFUSED") i) = false) ∧
    (waitUntilReady none (fun _ => PollOutcome.thrown "connect ECONNREFUSED")).result =
      .error (.typed "Sandbox failed to become ready within the timeout period."
        .RunFailed
        (some ((lastObservedError (fun _ => PollOutcome.thrown "connect ECONNREFUSED")
          (pollAttempts none)).getD "null"))) :=
  ⟨by decide,
   C5_waitUntilReady_exhaustion none (fun _ => PollOutcome.thrown "connect ECONNREFUSED")
     (by decide)⟩

/-!
Teardown claims (C1, C6).
-/

/-- Environment in which the kill fails and both unlocks reject with the
same proper-lockfile reason. -/
def c1TdEnv : TeardownEnv :=
  ⟨false, some "Lock is not acquired/owned by you",
   some "Lock is not acquired/owned by you", none⟩

/-- C1 counterexample. The claim states each unlock failure is tagged with
which port it concerns. The recorded entry is "Failed to unlock port: "
followed only by the rejection reason: when the rpc and net unlock reject
with the same reason, the two entries are identical strings, and the
aggregate message identifies neither port — the entries carry no port tag. -/
theorem C1_counterexample :
    unlockFailEntries c1TdEnv =
      ["Failed to unlock port: Lock is not acquired/owned by you",
       "Failed to unlock port: Lock is not acquired/owned by you"] ∧
    (tearDown c1TdEnv false true).result =
      .error (.typed "Sandbox teardown encountered errors" .TearDownFailed
        (some ("- Failed to kill the child process\n" ++
          "- Failed to unlock port: Lock is not acquired/owned by you\n" ++
          "- Failed to unlock port: Lock is not acquired/owned by you"))) := by
  refine ⟨by decide, by decide⟩

/-- C1 (amended): when killing the child process fails and at least one
port-lock release also fails, every teardown step is still executed; each
unlock failure is recorded separately as its own entry, in the fixed order
rpc lock then net lock, carrying the unlock rejection reason (but not
otherwise tagged with which port it concerns); and the call fails with a
single TearDownFailed error whose message joins the failure message of
every failed step, "- "-prefixed, in step order. -/
theorem C1_tearDown_aggregation (env : TeardownEnv) (cleanup homeDirPresent : Bool)
    (r : String) (hk : env.killSuccess = false)
    (hu : env.unlockRpcError = some r ∨ env.unlockNetError = some r) :
    (tearDown env cleanup homeDirPresent).steps = teardownSteps cleanup ∧
    (tearDown env cleanup homeDirPresent).result =
      .error (.typed "Sandbox teardown encountered errors" .TearDownFailed
        (some (String.intercalate "\n"
          ((tdErrorMessages env cleanup).map (fun m => "- " ++ m))))) ∧
    (∃ tail, tdErrorMessages env cleanup =
      ("Failed to kill the child process" :: unlockFailEntries env) ++ tail) ∧
    ("Failed to unlock port: " ++ r) ∈ unlockFailEntries env := by
  refine ⟨rfl, ?_, ?_, ?_⟩
  · have hne : (tdErrorMessages env cleanup).isEmpty = false := by
      simp [tdErrorMessages, hk]
    simp only [tearDown, hne, Bool.false_eq_true, if_false]
  · refine ⟨rmFailEntries env cleanup, ?_⟩
    simp [tdErrorMessages, hk, List.append_assoc]
  · rcases hu with h | h
    · simp [unlockFailEntries, h]
    · simp [unlockFailEntries, h]

/-- C1 witness: the amended theorem evaluated on the concrete environment
of the counterexample scenario. -/
theorem C1_witness :
    c1TdEnv.killSuccess = false ∧
    (c1TdEnv.unlockRpcError = some "Lock is not acquired/owned by you" ∨
      c1TdEnv.unlockNetError = some "Lock is not acquired/owned by you") ∧
    (tearDown c1TdEnv false true).steps = teardownSteps false ∧
    (tearDown c1TdEnv false true).result =
      .error (.typed "Sandbox teardown encountered errors" .TearDownFailed
        (some (String.intercalate "\n"
          ((tdErrorMessages c1TdEnv false).map (fun m => "- " ++ m))))) ∧
    (∃ tail, tdErrorMessages c1TdEnv false =
      ("Failed to kill the child process" :: unlockFailEntries c1TdEnv) ++ tail) ∧
    ("Failed to unlock port: Lock is not acquired/owned by you") ∈
      unlockFailEntries c1TdEnv := by
  have h := C1_tearDown_aggregation c1TdEnv false true
    "Lock is not acquired/owned by you" rfl (Or.inl rfl)
  exact ⟨rfl, Or.inl rfl, h.1, h.2.1, h.2.2.1, h.2.2.2⟩

/-- C6: tearDown with cleanup=false performs no removal step and leaves the
home directory's presence unchanged; with cleanup=true the removal step
runs only after the process-exit wait, and whenever rm does not reject
(including when the directory was already absent, which recursive+force
removal tolerates) the directory is absent afterwards and no removal
failure is recorded. -/
theorem C6_tearDown_cleanup (env : TeardownEnv) (present : Bool) :
    (tearDown env false present).homeDirPresent = present ∧
    TdStep.removeHomeDir ∉ (tearDown env false present).steps ∧
    (env.rmError = none → (tearDown env true present).homeDirPresent = false) ∧
    (env.rmError = none → rmFailEntries env true = []) ∧
    [TdStep.awaitExit, TdStep.removeHomeDir].Sublist (tearDown env true present).steps := by
  refine ⟨?_, ?_, ?_, ?_, ?_⟩
  · simp [tearDown]
  · simp [tearDown, teardownSteps]
  · intro h
    simp [tearDown, h]
  · intro h
    simp [rmFailEntries, h]
  · show [TdStep.awaitExit, TdStep.removeHomeDir].Sublist (teardownSteps true)
    exact List.sublist_append_right
      [TdStep.killProcess, TdStep.unlockRpc, TdStep.unlockNet]
      [TdStep.awaitExit, TdStep.removeHomeDir]

/-- C6 witness: the theorem evaluated on a concrete fully-succeeding
environment with the directory initially absent — cleanup still reports the
directory absent and records no removal failure. -/
theorem C6_witness :
    (tearDown ⟨true, none, none, none⟩ false true).homeDirPresent = true ∧
    ((⟨true, none, none, none⟩ : TeardownEnv).rmError = none) ∧
    (tearDown ⟨true, none, none, none⟩ true false).homeDirPresent = false ∧
    rmFailEntries ⟨true, none, none, none⟩ true = [] := by
  have h := C6_tearDown_cleanup (⟨true, none, none, none⟩ : TeardownEnv) true
  have h2 := C6_tearDown_cleanup (⟨true, none, none, none⟩ : TeardownEnv) false
  exact ⟨h.1, rfl, h2.2.2.1 rfl, h.2.2.2.1 rfl⟩

/-!
Start-sequence claims (C7, C9).
-/

/-- The full event trace of a successful Sandbox.start, where p is the rpc
port and q the net port. -/
def fullStartTrace (p q : Nat) : List StartEvent :=
  [.initConfigs, .setGenesis, .setConfig, .acquireStart .rpc, .acquireDone .rpc p,
   .acquireStart .net, .acquireDone .net q, .spawnProcess, .readyConfirmed]

theorem sandboxStart_trace_shape (env : StartEnv) (config : SandboxStartConfig)
    (fs : List String) :
    (sandboxStart env config fs).2.1 = [.initConfigs] ∨
    (sandboxStart env config fs).2.1 = [.initConfigs, .setGenesis] ∨
    (sandboxStart env config fs).2.1 = [.initConfigs, .setGenesis, .setConfig] ∨
    (sandboxStart env config fs).2.1 =
      [.initConfigs, .setGenesis, .setConfig, .acquireStart .rpc] ∨
    (∃ p, (sandboxStart env config fs).2.1 =
      [.initConfigs, .setGenesis, .setConfig, .acquireStart .rpc,
       .acquireDone .rpc p, .acquireStart .net]) ∨
    (∃ p q, (sandboxStart env config fs).2.1 =
      [.initConfigs, .setGenesis, .setConfig, .acquireStart .rpc,
       .acquireDone .rpc p, .acquireStart .net, .acquireDone .net q,
       .spawnProcess]) ∨
    (∃ p q, (sandboxStart env config fs).2.1 = fullStartTrace p q) := by
  cases h1 : env.initConfigsError with
  | some m => exact Or.inl (by simp [sandboxStart, h1])
  | none =>
  cases h2 : env.setGenesisError with
  | some m => exact Or.inr (Or.inl (by simp [sandboxStart, h1, h2]))
  | none =>
  cases h3 : env.setConfigError with
  | some m => exact Or.inr (Or.inr (Or.inl (by simp [sandboxStart, h1, h2, h3])))
  | none =>
  rcases h4 : acquireOrLockPort env.tmpdir env.rpcOracle fs config.rpcPort with ⟨r4, fs4⟩
  cases r4 with
  | error e =>
    exact Or.inr (Or.inr (Or.inr (Or.inl
      (by simp [sandboxStart, getPorts, h1, h2, h3, h4]))))
  | ok rpcLease =>
  rcases h5 : acquireOrLockPort env.tmpdir env.netOracle fs4 config.netPort with ⟨r5, fs5⟩
  cases r5 with
  | error e =>
    exact Or.inr (Or.inr (Or.inr (Or.inr (Or.inl ⟨rpcLease.port,
      by simp [sandboxStart, getPorts, h1, h2, h3, h4, h5]⟩))))
  | ok netLease =>
  cases h6 : env.runBinaryError with
  | some m =>
    exact Or.inr (Or.inr (Or.inr (Or.inr (Or.inr (Or.inl ⟨rpcLease.port, netLease.port,
      by simp [sandboxStart, getPorts, spawnSandbox, h1, h2, h3, h4, h5, h6]⟩)))))
  | none =>
  rcases h7 : (waitUntilReady env.readyEnvVar env.poll).result with e | u
  · exact Or.inr (Or.inr (Or.inr (Or.inr (Or.inr (Or.inl ⟨rpcLease.port, netLease.port,
      by simp [sandboxStart, getPorts, spawnSandbox, h1, h2, h3, h4, h5, h6, h7]⟩)))))
  · exact Or.inr (Or.inr (Or.inr (Or.inr (Or.inr (Or.inr ⟨rpcLease.port, netLease.port,
      by simp [sandboxStart, getPorts, spawnSandbox, fullStartTrace,
        h1, h2, h3, h4, h5, h6, h7]⟩)))))

/-- C7: within every start sequence, whenever network-port acquisition has
begun, rpc-port acquisition had already completed (lock held) before it;
and whenever the process spawn happens, both acquisitions had completed
before it, in order. -/
theorem C7_start_ordering (env : StartEnv) (config : SandboxStartConfig)
    (fs : List String) :
    (StartEvent.acquireStart .net ∈ (sandboxStart env config fs).2.1 →
      ∃ p, [StartEvent.acquireStart .rpc, StartEvent.acquireDone .rpc p,
        StartEvent.acquireStart .net].Sublist (sandboxStart env config fs).2.1) ∧
    (StartEvent.spawnProcess ∈ (sandboxStart env config fs).2.1 →
      ∃ p q, [StartEvent.acquireStart .rpc, StartEvent.acquireDone .rpc p,
        StartEvent.acquireStart .net, StartEvent.acquireDone .net q,
        StartEvent.spawnProcess].Sublist (sandboxStart env config fs).2.1) := by
  rcases sandboxStart_trace_shape env config fs with
    h | h | h | h | ⟨p, h⟩ | ⟨p, q, h⟩ | ⟨p, q, h⟩ <;> rw [h] <;> constructor
  · intro hmem; simp at hmem
  · intro hmem; simp at hmem
  · intro hmem; simp at hmem
  · intro hmem; simp at hmem
  · intro hmem; simp at hmem
  · intro hmem; simp at hmem
  · intro hmem; simp at hmem
  · intro hmem; simp at hmem
  · intro _
    refine ⟨p, ?_⟩
    simpa using List.sublist_append_right
      [StartEvent.initConfigs, .setGenesis, .setConfig]
      [StartEvent.acquireStart .rpc, .acquireDone .rpc p, .acquireStart .net]
  · intro hmem; simp at hmem
  · intro _
    refine ⟨p, ?_⟩
    have hsub := (List.sublist_append_left
      [StartEvent.acquireStart .rpc, .acquireDone .rpc p, .acquireStart .net]
      [StartEvent.acquireDone .net q, .spawnProcess]).trans
      (List.sublist_append_right [StartEvent.initConfigs, .setGenesis, .setConfig]
        ([StartEvent.acquireStart .rpc, .acquireDone .rpc p, .acquireStart .net] ++
          [StartEvent.acquireDone .net q, .spawnProcess]))
    simpa using hsub
  · intro _
    refine ⟨p, q, ?_⟩
    simpa using List.sublist_append_right
      [StartEvent.initConfigs, .setGenesis, .setConfig]
      [StartEvent.acquireStart .rpc, .acquireDone .rpc p, .acquireStart .net,
       .acquireDone .net q, .spawnProcess]
  · intro _
    refine ⟨p, ?_⟩
    have hsub := (List.sublist_append_left
      [StartEvent.acquireStart .rpc, .acquireDone .rpc p, .acquireStart .net]
      [StartEvent.acquireDone .net q, .spawnProcess, .readyConfirmed]).trans
      (List.sublist_append_right [StartEvent.initConfigs, .setGenesis, .setConfig]
        ([StartEvent.acquireStart .rpc, .acquireDone .rpc p, .acquireStart .net] ++
          [StartEvent.acquireDone .net q, .spawnProcess, .readyConfirmed]))
    simpa [fullStartTrace] using hsub
  · intro _
    refine ⟨p, q, ?_⟩
    have hsub := (List.sublist_append_left
      [StartEvent.acquireStart .rpc, .acquireDone .rpc p, .acquireStart .net,
       .acquireDone .net q, .spawnProcess]
      [StartEvent.readyConfirmed]).trans
      (List.sublist_append_right [StartEvent.initConfigs, .setGenesis, .setConfig]
        ([StartEvent.acquireStart .rpc, .acquireDone .rpc p, .acquireStart .net,
          .acquireDone .net q, .spawnProcess] ++ [StartEvent.readyConfirmed]))
    simpa [fullStartTrace] using hsub

/-- C9: whenever Sandbox.start returns a handle, the full start sequence
ran: configs were initialized, both ports were acquired (locks held, in
order), the process was spawned, and readiness was confirmed by a 2xx
status response within the polling budget; the handle's fields are exactly
the rpc url, the home directory and the two held lock paths. Any failure
instead propagates as an error and no handle is produced (the result type
admits no partially-built handle). -/
theorem C9_start_all_or_nothing (env : StartEnv) (config : SandboxStartConfig)
    (fs : List String) (s : SandboxHandle)
    (h : (sandboxStart env config fs).1 = .ok s) :
    ∃ p q,
      (sandboxStart env config fs).2.1 = fullStartTrace p q ∧
      s.rpcUrl = "http://" ++ rpcSocket p ∧
      s.homeDir = env.homeDirPath ∧
      s.rpcPortLockPath = lockFilePathFor env.tmpdir p ∧
      s.netPortLockPath = lockFilePathFor env.tmpdir q ∧
      (∃ i, i < pollAttempts env.readyEnvVar ∧ is2xx (env.poll i) = true) := by
  cases h1 : env.initConfigsError with
  | some m => rw [show (sandboxStart env config fs).1 = .error (.raw m) from
      by simp [sandboxStart, h1]] at h; cases h
  | none =>
  cases h2 : env.setGenesisError with
  | some m => rw [show (sandboxStart env config fs).1 = .error (.raw m) from
      by simp [sandboxStart, h1, h2]] at h; cases h
  | none =>
  cases h3 : env.setConfigError with
  | some m => rw [show (sandboxStart env config fs).1 = .error (.raw m) from
      by simp [sandboxStart, h1, h2, h3]] at h; cases h
  | none =>
  rcases h4 : acquireOrLockPort env.tmpdir env.rpcOracle fs config.rpcPort with ⟨r4, fs4⟩
  cases r4 with
  | error e =>
    rw [show (sandboxStart env config fs).1 = .error e from
      by simp [sandboxStart, getPorts, h1, h2, h3, h4]] at h
    cases h
  | ok rpcLease =>
  rcases h5 : acquireOrLockPort env.tmpdir env.netOracle fs4 config.netPort with ⟨r5, fs5⟩
  cases r5 with
  | error e =>
    rw [show (sandboxStart env config fs).1 = .error e from
      by simp [sandboxStart, getPorts, h1, h2, h3, h4, h5]] at h
    cases h
  | ok netLease =>
  cases h6 : env.runBinaryError with
  | some m =>
    rw [show (sandboxStart env config fs).1 = .error (.raw m) from
      by simp [sandboxStart, getPorts, spawnSandbox, h1, h2, h3, h4, h5, h6]] at h
    cases h
  | none =>
  rcases h7 : (waitUntilReady env.readyEnvVar env.poll).result with e | u
  · rw [show (sandboxStart env config fs).1 = .error e from
      by simp [sandboxStart, getPorts, spawnSandbox, h1, h2, h3, h4, h5, h6, h7]] at h
    cases h
  · have hs : (sandboxStart env config fs).1 =
        .ok ⟨"http://" ++ rpcSocket rpcLease.port, env.homeDirPath,
          rpcLease.lockFilePath, netLease.lockFilePath⟩ := by
      simp [sandboxStart, getPorts, spawnSandbox, h1, h2, h3, h4, h5, h6, h7]
    rw [hs] at h
    have hset : (⟨"http://" ++ rpcSocket rpcLease.port, env.homeDirPath,
        rpcLease.lockFilePath, netLease.lockFilePath⟩ : SandboxHandle) = s := by
      cases h
      rfl
    have htr : (sandboxStart env config fs).2.1 =
        fullStartTrace rpcLease.port netLease.port := by
      simp [sandboxStart, getPorts, spawnSandbox, fullStartTrace,
        h1, h2, h3, h4, h5, h6, h7]
    have hready : ∃ i, i < pollAttempts env.readyEnvVar ∧ is2xx (env.poll i) = true := by
      have hok : (waitUntilReadyGo env.poll (pollAttempts env.readyEnvVar) 0 none).result
          = .ok () := by
        cases u
        exact h7
      have := (waitUntilReadyGo_ok_iff env.poll (pollAttempts env.readyEnvVar) 0 none).mp hok
      simpa using this
    refine ⟨rpcLease.port, netLease.port, htr, ?_, ?_, ?_, ?_, hready⟩
    · rw [← hset]
    · rw [← hset]
    · rw [← hset]
      exact acquireOrLockPort_ok_lockPath env.tmpdir env.rpcOracle fs
        config.rpcPort rpcLease fs4 h4
    · rw [← hset]
      exact acquireOrLockPort_ok_lockPath env.tmpdir env.netOracle fs4
        config.netPort netLease fs5 h5

/-- Start environment on which every step succeeds. -/
def startEnvW : StartEnv :=
  ⟨"/tmp", "/tmp/home", none, none, none,
   ⟨fun _ => .ok 3030, fun _ => true, fun _ => ""⟩,
   ⟨fun _ => .ok 3031, fun _ => true, fun _ => ""⟩,
   none, none, fun _ => .response 200⟩

/-- C9 witness: the theorem evaluated on a concrete fully-succeeding start. -/
theorem C9_witness :
    (sandboxStart startEnvW ⟨some 3030, some 3031⟩ []).1 =
      .ok ⟨"http://127.0.0.1:3030", "/tmp/home",
        "/tmp/near-sandbox-port-3030.lock", "/tmp/near-sandbox-port-3031.lock"⟩ ∧
    (∃ p q,
      (sandboxStart startEnvW ⟨some 3030, some 3031⟩ []).2.1 = fullStartTrace p q ∧
      ("http://127.0.0.1:3030" : String) = "http://" ++ rpcSocket p ∧
      ("/tmp/home" : String) = startEnvW.homeDirPath ∧
      ("/tmp/near-sandbox-port-3030.lock" : String) = lockFilePathFor startEnvW.tmpdir p ∧
      ("/tmp/near-sandbox-port-3031.lock" : String) = lockFilePathFor startEnvW.tmpdir q ∧
      (∃ i, i < pollAttempts startEnvW.readyEnvVar ∧ is2xx (startEnvW.poll i) = true)) :=
  ⟨by decide,
   C9_start_all_or_nothing startEnvW ⟨some 3030, some 3031⟩ []
     ⟨"http://127.0.0.1:3030", "/tmp/home",
      "/tmp/near-sandbox-port-3030.lock", "/tmp/near-sandbox-port-3031.lock"⟩
     (by decide)⟩

/-- C7 witness: the ordering theorem evaluated on the concrete
fully-succeeding start, whose trace contains the spawn event. -/
theorem C7_witness :
    StartEvent.spawnProcess ∈ (sandboxStart startEnvW ⟨some 3030, some 3031⟩ []).2.1 ∧
    (∃ p q, [StartEvent.acquireStart .rpc, StartEvent.acquireDone .rpc p,
      StartEvent.acquireStart .net, StartEvent.acquireDone .net q,
      StartEvent.spawnProcess].Sublist
        (sandboxStart startEnvW ⟨some 3030, some 3031⟩ []).2.1) :=
  ⟨by decide,
   (C7_start_ordering startEnvW ⟨some 3030, some 3031⟩ []).2 (by decide)⟩
